import Mathlib

/-!
Verification of the MapsScraper dashboard client (a React frontend controlling an
external scraping backend) against its design specification. The definitions below
are a shallow embedding of the client's observable logic: each definition's doc
comment names the source file and lines it is read from. Asynchronous handlers are
embedded as pure functions from the previous local state and the resolved result of
the network call (an `Except`) to the new state together with the effects the
handler performs (toasts shown, follow-up GET /keywords calls issued, form fields
appended). The backend's keyword reconciliation, whose implementation is not part
of the frontend sources, is modelled from the specification's own words and marked
as such.
-/

namespace MapsScraper

/-! ## Ingestion modes and multipart bodies -/

/-- Upload ingestion mode: the value of the mode selector on the Keywords page and
the second argument of the upload helpers. -/
inductive UploadMode
  | add
  | sync
  | replace
deriving DecidableEq

/-- The string a mode is serialised to when placed in a form field or compared by
the page logic. -/
def UploadMode.toStr : UploadMode → String
  | .add => "add"
  | .sync => "sync"
  | .replace => "replace"

/-- One field appended to a FormData multipart body. -/
structure FormField where
  name : String
  value : String
deriving DecidableEq

/-- Whether a multipart body carries a field with the given name. -/
def hasField (body : List FormField) (n : String) : Bool :=
  body.any fun f => f.name == n

/-- src/frontend/src/services/api.js, uploadKeywords (lines 56-64): builds a
FormData appending the file under "file" and the mode string under "mode", then
POSTs it to /keywords/upload. -/
def api_uploadKeywords_formData (file : String) (mode : UploadMode) : List FormField :=
  [⟨"file", file⟩, ⟨"mode", mode.toStr⟩]

/-- src/unnamed/part_005, useScraper.uploadKeywords (lines 49-62): builds a
FormData appending only the file under "file". The function takes a single `file`
parameter, so the mode argument its caller passes (Keywords.jsx line 31 calls
`uploadKeywords(e.target.files[0], uploadMode)`) is dropped and no "mode" field is
appended. -/
def useScraper_uploadKeywords_formData (file : String) : List FormField :=
  [⟨"file", file⟩]

/-! ## Upload call sites -/

/-- A request handed to an upload helper at a call site: the selected file together
with the mode argument passed there. -/
structure UploadRequest where
  file : String
  mode : UploadMode
deriving DecidableEq

/-- src/frontend/src/pages/Keywords.jsx, handleFileUpload (lines 18-41): the upload
calls issued for one file-input change event. `file` is e.target.files[0] (`none`
when the file list is empty); `confirmed` is what the confirm dialog returns in the
one case the code shows it (mode replace). A declined confirmation returns before
any request is made. -/
def keywordsPage_handleFileUpload (file : Option String) (uploadMode : UploadMode)
    (confirmed : Bool) : List UploadRequest :=
  match file with
  | none => []
  | some f =>
    if uploadMode == .replace then
      if !confirmed then [] else [⟨f, uploadMode⟩]
    else [⟨f, uploadMode⟩]

/-- src/frontend/src/components/KeywordManager.jsx, handleFileUpload (lines 22-26):
takes e.target.files[0], returns if it is absent, and otherwise always calls
`uploadFile(file, "add")`. -/
def keywordManager_handleFileUpload (file : Option String) : List UploadRequest :=
  match file with
  | none => []
  | some f => [⟨f, UploadMode.add⟩]

/-! ## The axios error interceptor -/

/-- The data the response interceptor reads off an axios error response:
`response.status` and `response.data.detail`. -/
structure ErrorResponse where
  status : Nat
  detail : Option String
deriving DecidableEq

/-- An axios error as the interceptor sees it: `error.response` (absent for
transport and timeout errors, which carry no HTTP response) and `error.message`. -/
structure AxiosError where
  response : Option ErrorResponse
  message : Option String
deriving DecidableEq

/-- JavaScript truthiness of an optional string: null/undefined and "" are falsy. -/
def jsTruthy : Option String → Bool
  | none => false
  | some s => !(s == "")

/-- JavaScript `a || b` on optional strings: `a` when truthy, else `b`. -/
def jsOr (a b : Option String) : Option String :=
  if jsTruthy a then a else b

/-- src/frontend/src/services/api.js, response interceptor (lines 10-22; the same
code is in src/unnamed/part_001): the surfaced message is
`error.response?.data?.detail || error.message || "An unexpected error occurred"`. -/
def interceptorMsg (e : AxiosError) : String :=
  (jsOr (jsOr (e.response.bind ErrorResponse.detail) e.message)
    (some "An unexpected error occurred")).getD ""

/-- Same interceptor: a distinct "Server Error" toast is shown exactly when
`error.response?.status >= 500` (absent response means no toast, as comparing
undefined is false in JavaScript). -/
def interceptorServerToast (e : AxiosError) : Bool :=
  match e.response with
  | some r => decide (500 ≤ r.status)
  | none => false

/-- src/frontend/src/services/api.js line 6 (and src/unnamed/part_001 line 6): the
timeout passed to axios.create, in milliseconds, shared by every request. -/
def apiTimeoutMs : Nat := 60000

/-! ## The useKeywords hook: keyword list state and user actions -/

/-- A keyword record as the frontend receives it from GET /keywords. -/
structure KeywordRecord where
  id : Nat
  text : String
  city : Option String
  status : String
  updated_at : Nat
deriving DecidableEq

/-- The pagination object held by useKeywords. -/
structure Pagination where
  page : Nat
  limit : Nat
  total : Nat
  total_pages : Nat
deriving DecidableEq

/-- The local view state useKeywords holds: the fetched keyword list and the
pagination. (The transient `loading` flag is ancillary and not modelled.) -/
structure KwView where
  keywords : List KeywordRecord
  pagination : Pagination
deriving DecidableEq

/-- A GET /keywords call as issued by fetchKeywords: the page and limit requested. -/
structure FetchCall where
  page : Nat
  limit : Nat
deriving DecidableEq

inductive ToastKind
  | success
  | error
deriving DecidableEq

/-- A toast message shown to the user. -/
structure Toast where
  kind : ToastKind
  msg : String
deriving DecidableEq

/-- The structured result of the upload and reset endpoints. -/
structure ApiResult where
  message : String
deriving DecidableEq

/-- What one useKeywords action produces: the view after the handler itself ran,
the toasts it showed, and the GET /keywords refetches it issued. -/
structure ActionOutcome where
  view : KwView
  toasts : List Toast
  fetches : List FetchCall
deriving DecidableEq

/-- src/frontend/src/hooks/useKeywords.js, uploadFile (lines 28-38): on success,
toast the result message and refetch page 1 with the current limit; on error, toast
`error.response?.data?.detail || "Upload failed"` and touch nothing. -/
def useKeywords_uploadFile (st : KwView) (res : Except AxiosError ApiResult) :
    ActionOutcome :=
  match res with
  | .ok r => ⟨st, [⟨.success, r.message⟩], [⟨1, st.pagination.limit⟩]⟩
  | .error e =>
    ⟨st, [⟨.error, (jsOr (e.response.bind ErrorResponse.detail)
      (some "Upload failed")).getD ""⟩], []⟩

/-- src/frontend/src/hooks/useKeywords.js, resetFailed (lines 40-48): on success,
toast and refetch the current page with the current limit; on error, toast a fixed
message and touch nothing. -/
def useKeywords_resetFailed (st : KwView) (res : Except AxiosError ApiResult) :
    ActionOutcome :=
  match res with
  | .ok r => ⟨st, [⟨.success, r.message⟩], [⟨st.pagination.page, st.pagination.limit⟩]⟩
  | .error _ => ⟨st, [⟨.error, "Failed to reset failed keywords"⟩], []⟩

/-- src/frontend/src/hooks/useKeywords.js, resetSkipped (lines 50-58): same shape
as resetFailed. -/
def useKeywords_resetSkipped (st : KwView) (res : Except AxiosError ApiResult) :
    ActionOutcome :=
  match res with
  | .ok r => ⟨st, [⟨.success, r.message⟩], [⟨st.pagination.page, st.pagination.limit⟩]⟩
  | .error _ => ⟨st, [⟨.error, "Failed to reset skipped keywords"⟩], []⟩

/-- src/frontend/src/hooks/useKeywords.js, resetAll (lines 60-68): same shape as
resetFailed. -/
def useKeywords_resetAll (st : KwView) (res : Except AxiosError ApiResult) :
    ActionOutcome :=
  match res with
  | .ok r => ⟨st, [⟨.success, r.message⟩], [⟨st.pagination.page, st.pagination.limit⟩]⟩
  | .error _ => ⟨st, [⟨.error, "Failed to reset all keywords"⟩], []⟩

/-- src/frontend/src/components/ControlPanel.jsx, handleControl: POSTs
/control/ACTION and only toasts; the component holds no keyword or pagination
state, so an error can mutate nothing. -/
def controlPanel_handleControl (action : String) (res : Except AxiosError Unit) :
    List Toast :=
  match res with
  | .ok _ => [⟨.success, "Sent command: " ++ action⟩]
  | .error _ => [⟨.error, "Failed to " ++ action ++ " scraper"⟩]

/-! ## Polling hooks

Each polling hook runs an effect that stores a mutable `isMounted` flag (set to
false by the effect's cleanup), issues a fetch now and on every interval tick, and
applies the resolved result to React state. `apply` functions below embed one
resolution of such a fetch: they take the value of the hook's mounted flag at the
moment the promise resolves, the previous state, and the resolved result. -/

/-- The state of a useMetrics/useLogs-style hook: the displayed value and the last
stored error. -/
structure PollView (D E : Type) where
  value : D
  error : Option E
deriving DecidableEq

/-- The state useScraperStatus holds. -/
structure StatusView (E : Type) where
  status : String
  isLoading : Bool
  error : Option E
deriving DecidableEq

/-- src/frontend/src/hooks/useMetrics.js, fetchMetrics (lines 11-21): on success,
when still mounted, store the data and clear the error; on failure, when still
mounted, store only the error; when unmounted, write nothing. -/
def useMetrics_applyFetch {M E : Type} (isMounted : Bool)
    (st : PollView (Option M) E) (res : Except E M) : PollView (Option M) E :=
  match res with
  | .ok data => if isMounted then ⟨some data, none⟩ else st
  | .error err => if isMounted then ⟨st.value, some err⟩ else st

/-- src/unnamed/part_004, useLogs fetchLogs (lines 11-21): same shape as
useMetrics, over the list of fetched log lines. -/
def useLogs_applyFetch {L E : Type} (isMounted : Bool)
    (st : PollView (List L) E) (res : Except E (List L)) : PollView (List L) E :=
  match res with
  | .ok data => if isMounted then ⟨data, none⟩ else st
  | .error err => if isMounted then ⟨st.value, some err⟩ else st

/-- src/frontend/src/hooks/useScraperStatus.js, fetchStatus (lines 12-26): on
success, when still mounted, store the status and clear the error; on failure,
when still mounted, store only the error; the finally block clears isLoading when
still mounted; when unmounted, write nothing. -/
def useScraperStatus_applyFetch {E : Type} (isMounted : Bool)
    (st : StatusView E) (res : Except E String) : StatusView E :=
  let st1 :=
    match res with
    | .ok s => if isMounted then { st with status := s, error := none } else st
    | .error e => if isMounted then { st with error := some e } else st
  if isMounted then { st1 with isLoading := false } else st1

/-- The state the useScraper hook (src/unnamed/part_005) holds for its poller. -/
structure ScraperView (M L : Type) where
  status : String
  metrics : M
  logs : List L
deriving DecidableEq

/-- src/unnamed/part_005, the useScraper polling interval callback (lines 12-29):
awaits /status, /metrics and /logs in order inside one try block; a failure aborts
the rest of the tick silently (the catch is empty), keeping the writes already
made. No write consults a mounted flag — the hook defines none — so the
`isMounted` parameter (whether the component is still mounted when the tick's
responses resolve) is ignored by the body. -/
def useScraper_pollTick {M L E : Type} (_isMounted : Bool) (st : ScraperView M L)
    (rs : Except E String) (rm : Except E M) (rl : Except E (List L)) :
    ScraperView M L :=
  match rs with
  | .error _ => st
  | .ok s =>
    let st1 := { st with status := s }
    match rm with
    | .error _ => st1
    | .ok mv =>
      let st2 := { st1 with metrics := mv }
      match rl with
      | .error _ => st2
      | .ok lv => { st2 with logs := lv }

/-- Interval timers a hook's effect creates and how many its cleanup clears. -/
structure TimerUse where
  created : Nat
  cleared : Nat
deriving DecidableEq

/-- src/frontend/src/hooks/useMetrics.js, effect lines 8-30: one setInterval; the
cleanup clears it. -/
def useMetrics_timers : TimerUse := ⟨1, 1⟩

/-- src/frontend/src/hooks/useScraperStatus.js, effect lines 9-38: one
setInterval; the cleanup clears it. -/
def useScraperStatus_timers : TimerUse := ⟨1, 1⟩

/-- src/unnamed/part_004, useLogs effect lines 8-30: one setInterval; the cleanup
clears it. -/
def useLogs_timers : TimerUse := ⟨1, 1⟩

/-- src/unnamed/part_005, useScraper effect lines 12-29: one setInterval; the
cleanup clears it. -/
def useScraper_timers : TimerUse := ⟨1, 1⟩

/-! ## The Keywords page search filter -/

/-- JavaScript String.prototype.includes over character lists: whether `t` occurs
contiguously in `s` (the empty list occurs in every list). -/
def jsIncludes (s t : List Char) : Bool :=
  match s with
  | [] => t.isEmpty
  | c :: rest => t.isPrefixOf (c :: rest) || jsIncludes rest t

/-- JavaScript String.prototype.toLowerCase, embedded as lowercasing each
character of the string. -/
def jsToLower (s : List Char) : List Char :=
  s.map Char.toLower

/-- src/frontend/src/pages/Keywords.jsx line 43:
`keywords.filter(k => k.text.toLowerCase().includes(filter.toLowerCase()))`. A pure
projection: it takes the fetched list and returns the rows to display. -/
def keywordsPage_filtered (filter : String) (keywords : List KeywordRecord) :
    List KeywordRecord :=
  keywords.filter fun k => jsIncludes (jsToLower k.text.data) (jsToLower filter.data)

/-! ## The backend keyword reconciliation, modelled from the spec

The backend that implements POST /keywords/upload is not among the frontend
sources; only its HTTP callers are. Its add-mode reconciliation is therefore
modelled from the specification's own words (spec section 4.1): identity is the
(text, city) pair, rows whose identity is absent are inserted at status PENDING,
and existing records are untouched. -/

/-- Modelled from the spec: the status a keyword record occupies in the backend
store (spec section 3). -/
inductive KwStatus
  | PENDING
  | PROCESSING
  | DONE
  | FAILED
  | SKIPPED
deriving DecidableEq

/-- Modelled from the spec: a keyword record as the backend stores it, restricted
to the fields the add-mode contract mentions. -/
structure BackendRecord where
  text : String
  city : Option String
  status : KwStatus
deriving DecidableEq

/-- Modelled from the spec: one parsed row of an uploaded file. -/
structure UploadRow where
  text : String
  city : Option String
deriving DecidableEq

/-- Modelled from the spec: a row is "already present" when an existing record has
an equal text value and, city being part of the schema, an equal city (spec
section 4.1, identity/dedup rule). -/
def sameIdentity (r : BackendRecord) (row : UploadRow) : Bool :=
  r.text == row.text && r.city == row.city

/-- Modelled from the spec: whether some current record already carries the row's
identity. -/
def present (recs : List BackendRecord) (row : UploadRow) : Bool :=
  recs.any fun r => sameIdentity r row

/-- Modelled from the spec: processing one row in add mode — skip it when its
identity is already present, otherwise insert a new record at status PENDING. -/
def addInsertRow (recs : List BackendRecord) (row : UploadRow) : List BackendRecord :=
  if present recs row then recs
  else recs ++ [⟨row.text, row.city, KwStatus.PENDING⟩]

/-- Modelled from the spec: an add-mode upload processes the file's rows in order
against the current records. -/
def addUpload (recs : List BackendRecord) (rows : List UploadRow) :
    List BackendRecord :=
  rows.foldl addInsertRow recs

/-! ## Theorems -/

/-- C1: the api.js ingestion client puts both the file and the mode field in the
multipart body it constructs, but the useScraper ingestion client (part_005)
appends only the file — invoked from the Keywords page with mode replace, the body
it constructs carries no mode field, so the chosen mode is not transmitted to the
backend on that path. -/
theorem uploadBody_mode_field_dropped_in_useScraper :
    hasField (api_uploadKeywords_formData "keywords.xlsx" UploadMode.replace) "file" = true
  ∧ hasField (api_uploadKeywords_formData "keywords.xlsx" UploadMode.replace) "mode" = true
  ∧ hasField (useScraper_uploadKeywords_formData "keywords.xlsx") "file" = true
  ∧ hasField (useScraper_uploadKeywords_formData "keywords.xlsx") "mode" = false := by
  refine ⟨by decide, by decide, by decide, by decide⟩

/-- C2 (counterexample): with the view on page 3, a successful reset-failed
refetches page 3 — not page 1 as the claim states. -/
theorem resetFailed_refetches_current_page_not_one :
    (useKeywords_resetFailed ⟨[], ⟨3, 100, 500, 5⟩⟩ (Except.ok ⟨"reset"⟩)).fetches
      = [⟨3, 100⟩]
  ∧ (3 : Nat) ≠ 1 := by
  exact ⟨rfl, by decide⟩

/-- C2 (amended): after a successful upload the client refetches page 1 with the
current limit; after a successful reset (failed, skipped, all) it refetches the
page it was already on; a failed operation triggers no refetch at all. -/
theorem refetch_pages_after_operations :
    ∀ (st : KwView) (r : ApiResult) (e : AxiosError),
      (useKeywords_uploadFile st (Except.ok r)).fetches = [⟨1, st.pagination.limit⟩]
    ∧ (useKeywords_resetFailed st (Except.ok r)).fetches
        = [⟨st.pagination.page, st.pagination.limit⟩]
    ∧ (useKeywords_resetSkipped st (Except.ok r)).fetches
        = [⟨st.pagination.page, st.pagination.limit⟩]
    ∧ (useKeywords_resetAll st (Except.ok r)).fetches
        = [⟨st.pagination.page, st.pagination.limit⟩]
    ∧ (useKeywords_uploadFile st (Except.error e)).fetches = []
    ∧ (useKeywords_resetFailed st (Except.error e)).fetches = []
    ∧ (useKeywords_resetSkipped st (Except.error e)).fetches = []
    ∧ (useKeywords_resetAll st (Except.error e)).fetches = [] := by
  intro st r e
  exact ⟨rfl, rfl, rfl, rfl, rfl, rfl, rfl, rfl⟩

/-- C3: when a poll tick's fetch fails, every poller keeps the previously
displayed value — useMetrics keeps its metrics, useLogs its log window,
useScraperStatus its status, and a useScraper tick whose first await throws leaves
the whole state unchanged. Each handler is a total function (the exception is
caught), so the failure is not propagated as fatal. -/
theorem pollers_keep_value_on_failed_tick :
    ∀ (M L E : Type) (m : Bool) (stM : PollView (Option M) E)
      (stL : PollView (List L) E) (stS : StatusView E) (stX : ScraperView M L)
      (err : E),
      (useMetrics_applyFetch m stM (Except.error err)).value = stM.value
    ∧ (useLogs_applyFetch m stL (Except.error err)).value = stL.value
    ∧ (useScraperStatus_applyFetch m stS (Except.error err)).status = stS.status
    ∧ useScraper_pollTick m stX (Except.error err) (Except.error err)
        (Except.error err) = stX := by
  intro M L E m stM stL stS stX err
  refine ⟨?_, ?_, ?_, rfl⟩
  · cases m <;> rfl
  · cases m <;> rfl
  · cases m <;> rfl

/-- C4: the Keywords page issues a replace upload only when the confirm dialog
returned true — every issued request with mode replace has `confirmed` true — and
a declined confirmation issues no request at all. -/
theorem replace_upload_requires_confirmation :
    (∀ (file : Option String) (mode : UploadMode) (confirmed : Bool),
      (keywordsPage_handleFileUpload file mode confirmed).all
        (fun r => !(r.mode == UploadMode.replace) || confirmed) = true)
  ∧ ∀ file : Option String,
      keywordsPage_handleFileUpload file UploadMode.replace false = [] := by
  constructor
  · rintro (_ | f) mode confirmed
    · rfl
    · cases mode <;> cases confirmed <;> rfl
  · rintro (_ | f) <;> rfl

/-- C5: the interceptor surfaces response.data.detail when it is present (a
non-empty string, the truthiness the code tests), else the transport error's
message when present, else the generic fallback; the Server Error toast is shown
exactly when a response with HTTP status at least 500 is attached (so 4xx and
transport errors are not in that class); and every request shares the fixed
60-second timeout. -/
theorem api_error_normalization :
    ∀ e : AxiosError,
      (∀ d : String, d ≠ "" → e.response.bind ErrorResponse.detail = some d →
        interceptorMsg e = d)
    ∧ (jsTruthy (e.response.bind ErrorResponse.detail) = false →
        ∀ m : String, m ≠ "" → e.message = some m → interceptorMsg e = m)
    ∧ (jsTruthy (e.response.bind ErrorResponse.detail) = false →
        jsTruthy e.message = false →
        interceptorMsg e = "An unexpected error occurred")
    ∧ (interceptorServerToast e = true ↔ ∃ r, e.response = some r ∧ 500 ≤ r.status)
    ∧ apiTimeoutMs = 60 * 1000 := by
  intro e
  refine ⟨?_, ?_, ?_, ?_, rfl⟩
  · intro d hd hdet
    have hd2 : jsTruthy (some d) = true := by simp [jsTruthy, hd]
    simp [interceptorMsg, jsOr, hdet, hd2]
  · intro h m hm hmsg
    have hm2 : jsTruthy (some m) = true := by simp [jsTruthy, hm]
    simp [interceptorMsg, jsOr, h, hmsg, hm2]
  · intro h1 h2
    simp [interceptorMsg, jsOr, h1, h2]
  · cases he : e.response with
    | none => simp [interceptorServerToast, he]
    | some r => simp [interceptorServerToast, he]

/-- C6: every user-initiated action (upload, the three resets, job control)
surfaces an error as exactly one error toast and, on error, leaves the keyword
list and pagination untouched; even on success the handler itself mutates no view
state (only the follow-up refetch does, after backend confirmation), and the
control handler owns no view state at all. -/
theorem user_actions_surface_errors_without_mutation :
    ∀ (st : KwView) (e : AxiosError) (r : ApiResult) (action : String),
      (useKeywords_uploadFile st (Except.error e)).view = st
    ∧ (useKeywords_resetFailed st (Except.error e)).view = st
    ∧ (useKeywords_resetSkipped st (Except.error e)).view = st
    ∧ (useKeywords_resetAll st (Except.error e)).view = st
    ∧ (useKeywords_uploadFile st (Except.error e)).toasts.map Toast.kind
        = [ToastKind.error]
    ∧ (useKeywords_resetFailed st (Except.error e)).toasts.map Toast.kind
        = [ToastKind.error]
    ∧ (useKeywords_resetSkipped st (Except.error e)).toasts.map Toast.kind
        = [ToastKind.error]
    ∧ (useKeywords_resetAll st (Except.error e)).toasts.map Toast.kind
        = [ToastKind.error]
    ∧ controlPanel_handleControl action (Except.error e)
        = [⟨ToastKind.error, "Failed to " ++ action ++ " scraper"⟩]
    ∧ (useKeywords_uploadFile st (Except.ok r)).view = st
    ∧ (useKeywords_resetFailed st (Except.ok r)).view = st
    ∧ (useKeywords_resetSkipped st (Except.ok r)).view = st
    ∧ (useKeywords_resetAll st (Except.ok r)).view = st := by
  intro st e r action
  exact ⟨rfl, rfl, rfl, rfl, rfl, rfl, rfl, rfl, rfl, rfl, rfl, rfl, rfl⟩

/-- C8 (counterexample): a useScraper status response resolving after teardown
(mounted flag false) still writes to state: the stored status changes from idle to
running, so the claim that every polling hook discards post-teardown responses is
false. -/
theorem useScraper_writes_after_unmount :
    useScraper_pollTick false (⟨"idle", 0, []⟩ : ScraperView Nat Nat)
      (Except.ok "running") (Except.error ()) (Except.error ())
      ≠ ⟨"idle", 0, []⟩ := by
  decide

/-- C8 (amended): useMetrics, useLogs and useScraperStatus guard every write with
their isMounted flag, so once the cleanup ran (flag false) a resolving response
writes nothing; each of the four hooks clears the one interval it created; but
useScraper has no mounted guard, so its tick applies a late status response to
state regardless. -/
theorem unmount_clears_timers_and_guards_writes :
    (∀ (M L E : Type) (stM : PollView (Option M) E) (stL : PollView (List L) E)
        (stS : StatusView E) (rM : Except E M) (rL : Except E (List L))
        (rS : Except E String),
        useMetrics_applyFetch false stM rM = stM
      ∧ useLogs_applyFetch false stL rL = stL
      ∧ useScraperStatus_applyFetch false stS rS = stS)
  ∧ useMetrics_timers.cleared = useMetrics_timers.created
  ∧ useScraperStatus_timers.cleared = useScraperStatus_timers.created
  ∧ useLogs_timers.cleared = useLogs_timers.created
  ∧ useScraper_timers.cleared = useScraper_timers.created
  ∧ (∀ (M L E : Type) (st : ScraperView M L) (s : String) (em el : E),
      useScraper_pollTick false st (Except.ok s) (Except.error em)
        (Except.error el) = { st with status := s }) := by
  refine ⟨?_, rfl, rfl, rfl, rfl, ?_⟩
  · intro M L E stM stL stS rM rL rS
    refine ⟨?_, ?_, ?_⟩
    · cases rM <;> rfl
    · cases rL <;> rfl
    · cases rS <;> rfl
  · intro M L E st s em el
    rfl

/-- C10: every upload issued from the dashboard's KeywordManager widget carries
mode add, for any selected file, and no selected file means no request. -/
theorem keywordManager_uploads_only_add :
    (∀ file : Option String,
      (keywordManager_handleFileUpload file).all
        (fun r => r.mode == UploadMode.add) = true)
  ∧ keywordManager_handleFileUpload none = [] := by
  constructor
  · rintro (_ | f) <;> rfl
  · rfl

/-- Helper: the embedded JavaScript includes decides contiguous containment. -/
theorem jsIncludes_iff_infix (s t : List Char) : jsIncludes s t = true ↔ t <:+: s := by
  induction s with
  | nil => simp [jsIncludes, List.isEmpty_iff, List.infix_nil]
  | cons c rest ih =>
    rw [jsIncludes]
    simp [List.isPrefixOf_iff_prefix, ih, List.infix_cons_iff]

/-- Helper: the empty needle is contained in every string. -/
theorem jsIncludes_nil (s : List Char) : jsIncludes s [] = true := by
  cases s <;> rfl

/-- C7: the search filter is a pure view-layer projection — a record is displayed
iff the lowercased filter text occurs as a contiguous substring of its lowercased
text, the empty filter displays every fetched record, and the displayed list is a
sublist of the fetched one (records are neither mutated nor reordered, and no
fetch is involved: the function only reads its input list). -/
theorem keyword_filter_is_local_substring_projection :
    ∀ (f : String) (kws : List KeywordRecord),
      (∀ k, k ∈ keywordsPage_filtered f kws ↔
        k ∈ kws ∧ jsToLower f.data <:+: jsToLower k.text.data)
    ∧ keywordsPage_filtered "" kws = kws
    ∧ List.Sublist (keywordsPage_filtered f kws) kws := by
  intro f kws
  refine ⟨?_, ?_, List.filter_sublist _⟩
  · intro k
    simp [keywordsPage_filtered, List.mem_filter, jsIncludes_iff_infix]
  · rw [keywordsPage_filtered]
    refine List.filter_eq_self.mpr ?_
    intro k _
    exact jsIncludes_nil _

/-- Helper: one fold step of addUpload. -/
theorem addUpload_cons (recs : List BackendRecord) (row : UploadRow)
    (rows : List UploadRow) :
    addUpload recs (row :: rows) = addUpload (addInsertRow recs row) rows := rfl

/-- Helper: a row whose identity is already present inserts nothing. -/
theorem addInsertRow_of_present {recs : List BackendRecord} {row : UploadRow}
    (h : present recs row = true) : addInsertRow recs row = recs := by
  simp [addInsertRow, h]

/-- Helper: processing one row appends a (possibly empty) tail of fresh PENDING
records whose identity is absent from the previous records. -/
theorem addInsertRow_append (recs : List BackendRecord) (row : UploadRow) :
    ∃ tail, addInsertRow recs row = recs ++ tail
      ∧ ∀ r ∈ tail, r.status = KwStatus.PENDING
        ∧ present recs ⟨r.text, r.city⟩ = false := by
  by_cases h : present recs row = true
  · exact ⟨[], by simp [addInsertRow_of_present h], by simp⟩
  · refine ⟨[⟨row.text, row.city, KwStatus.PENDING⟩], by simp [addInsertRow, h], ?_⟩
    intro r hr
    rw [List.mem_singleton] at hr
    subst hr
    exact ⟨rfl, by simpa using h⟩

/-- Helper: an add-mode upload appends a tail of fresh PENDING records whose
identity is absent from the original records. -/
theorem addUpload_append (rows : List UploadRow) :
    ∀ recs : List BackendRecord, ∃ tail, addUpload recs rows = recs ++ tail
      ∧ ∀ r ∈ tail, r.status = KwStatus.PENDING
        ∧ present recs ⟨r.text, r.city⟩ = false := by
  induction rows with
  | nil => intro recs; exact ⟨[], by simp [addUpload], by simp⟩
  | cons row rest ih =>
    intro recs
    obtain ⟨t1, ht1, hp1⟩ := addInsertRow_append recs row
    obtain ⟨t2, ht2, hp2⟩ := ih (addInsertRow recs row)
    refine ⟨t1 ++ t2, ?_, ?_⟩
    · rw [addUpload_cons, ht2, ht1, List.append_assoc]
    · intro r hr
      rcases List.mem_append.mp hr with hin | hin
      · exact hp1 r hin
      · obtain ⟨hs, hpres⟩ := hp2 r hin
        refine ⟨hs, ?_⟩
        rw [ht1] at hpres
        have hsplit : (present recs ⟨r.text, r.city⟩
            || present t1 ⟨r.text, r.city⟩) = false := by
          simpa [present, List.any_append] using hpres
        exact (Bool.or_eq_false_iff.mp hsplit).1

/-- Helper: presence of an identity survives an add-mode upload. -/
theorem present_addUpload_mono (recs : List BackendRecord) (rows : List UploadRow)
    (q : UploadRow) (h : present recs q = true) :
    present (addUpload recs rows) q = true := by
  obtain ⟨tail, ht, -⟩ := addUpload_append rows recs
  rw [ht]
  unfold present at h ⊢
  rw [List.any_append, h]
  rfl

/-- Helper: after processing a row, its identity is present. -/
theorem present_self_addInsertRow (recs : List BackendRecord) (row : UploadRow) :
    present (addInsertRow recs row) row = true := by
  by_cases h : present recs row = true
  · rw [addInsertRow_of_present h]; exact h
  · have hne : addInsertRow recs row
        = recs ++ [⟨row.text, row.city, KwStatus.PENDING⟩] := by
      simp [addInsertRow, h]
    rw [hne]
    simp [present, List.any_append, List.any_cons, sameIdentity]

/-- Helper: every row of the uploaded file is present after the upload. -/
theorem all_rows_present_after_addUpload (rows : List UploadRow) :
    ∀ (recs : List BackendRecord) (row : UploadRow), row ∈ rows →
      present (addUpload recs rows) row = true := by
  induction rows with
  | nil => intro recs row h; exact absurd h (List.not_mem_nil row)
  | cons r0 rest ih =>
    intro recs row h
    rw [addUpload_cons]
    rcases List.mem_cons.mp h with h0 | h1
    · subst h0
      exact present_addUpload_mono _ rest row (present_self_addInsertRow recs row)
    · exact ih _ row h1

/-- Helper: uploading a file all of whose rows are already present changes
nothing. -/
theorem addUpload_noop (rows : List UploadRow) :
    ∀ recs : List BackendRecord, (∀ row ∈ rows, present recs row = true) →
      addUpload recs rows = recs := by
  induction rows with
  | nil => intro recs _; rfl
  | cons r0 rest ih =>
    intro recs h
    rw [addUpload_cons, addInsertRow_of_present (h r0 (List.mem_cons_self r0 rest))]
    exact ih recs fun row hr => h row (List.mem_cons_of_mem _ hr)

/-- C9: an add-mode upload leaves every existing record untouched (the result is
the existing list with a tail of new records appended), every inserted record
starts at status PENDING and carries a (text, city) identity absent from the
existing records, and uploading the identical file a second time inserts nothing
(dedup idempotence). -/
theorem addUpload_dedup_and_idempotent :
    ∀ (recs : List BackendRecord) (rows : List UploadRow),
      (∃ tail, addUpload recs rows = recs ++ tail
        ∧ ∀ r ∈ tail, r.status = KwStatus.PENDING
          ∧ present recs ⟨r.text, r.city⟩ = false)
    ∧ addUpload (addUpload recs rows) rows = addUpload recs rows := by
  intro recs rows
  refine ⟨addUpload_append rows recs, ?_⟩
  exact addUpload_noop rows _ fun row hr =>
    all_rows_present_after_addUpload rows recs row hr

end MapsScraper
